import Mathlib

/-!
Shallow embedding of the F1 prediction engine
(`src/api/app/services/prediction_service.py`, with the weight construction
used by `src/api/app/routers/predict.py`), together with theorems checking
the specification's claims about it.

Modelling conventions:
* Python floats are idealized as exact rationals (`ℚ`).
* External collaborators (FastF1 provider, weather provider, numpy's random
  draws, numpy's `argsort`, sklearn's gradient-boosting fit and the 70/30
  split) are not part of the repository; they are passed in explicitly as a
  `Lib` record of functions, constrained only by their documented contracts.
* sklearn objects are modelled by their documented observable behaviour:
  an unfitted `SimpleImputer`/`GradientBoostingRegressor` raises
  `NotFittedError` when asked to transform/predict/report importances, and
  a median `SimpleImputer` applied to data without missing values is the
  identity (it only fills NaNs).  Exceptions are modelled with `Except`.
-/

namespace F1Pred

/-- Weather snapshot, mirroring `WeatherData` in
`src/api/app/services/weather_service.py` (the `timestamp` field is omitted:
it never feeds the prediction computation). -/
structure WeatherData where
  temperature_c : ℚ
  wind_kph : ℚ
  precipitation_prob : ℚ
  precipitation_mm : ℚ
  cloud_percentage : ℤ
  humidity_percentage : ℤ
  pressure_hpa : ℚ
  weather_condition : String
  is_wet : Bool
deriving DecidableEq

/-- Default weather used by `predict_race` when no forecast is available
(`prediction_service.py` lines 113-126). -/
def default_weather : WeatherData :=
  { temperature_c := 20
    wind_kph := 10
    precipitation_prob := 0.1
    precipitation_mm := 0
    cloud_percentage := 30
    humidity_percentage := 60
    pressure_hpa := 1013.25
    weather_condition := "clear"
    is_wet := false }

/-- Value stored in a Python keyword-argument mapping: the request passes
`Dict[str, Any]`, whose values are numbers or booleans here. -/
inductive KwVal where
  | num : ℚ → KwVal
  | bool : Bool → KwVal
deriving DecidableEq

/-- Python `kwargs.get(key, default)` read in a numeric position
(a Python `bool` is an `int` subclass: `True` counts as 1, `False` as 0). -/
def kwGetNum (kwargs : List (String × KwVal)) (key : String) (d : ℚ) : ℚ :=
  match kwargs.lookup key with
  | some (KwVal.num v) => v
  | some (KwVal.bool b) => if b then 1 else 0
  | none => d

/-- Python `kwargs.get(key, default)` read in a boolean position
(a number is truthy iff nonzero). -/
def kwGetBool (kwargs : List (String × KwVal)) (key : String) (d : Bool) : Bool :=
  match kwargs.lookup key with
  | some (KwVal.bool b) => b
  | some (KwVal.num v) => decide (v ≠ 0)
  | none => d

/-- Operator-adjustable weights (`PredictionWeights`,
`prediction_service.py` lines 18-25). -/
structure PredictionWeights where
  track_suitability : ℚ
  clean_air_pace : ℚ
  qualifying_importance : ℚ
  team_form : ℚ
  weather_impact : ℚ
  chaos_mode : Bool
deriving DecidableEq

/-- `PredictionWeights.__init__(**kwargs)`: each field is `kwargs.get` with a
fixed default; keys other than the six field names are never read. -/
def PredictionWeights.ofKwargs (kwargs : List (String × KwVal)) : PredictionWeights :=
  { track_suitability := kwGetNum kwargs "track_suitability" 0.85
    clean_air_pace := kwGetNum kwargs "clean_air_pace" 0.90
    qualifying_importance := kwGetNum kwargs "qualifying_importance" 0.85
    team_form := kwGetNum kwargs "team_form" 0.68
    weather_impact := kwGetNum kwargs "weather_impact" 0.45
    chaos_mode := kwGetBool kwargs "chaos_mode" false }

/-- Per-driver prediction record (`DriverPrediction`,
`prediction_service.py` lines 27-33). -/
structure DriverPrediction where
  driver : String
  team : String
  predicted_time : ℚ
  win_probability : ℚ
  top3_probability : ℚ
deriving DecidableEq

/-- Fixed feature field order (`self.feature_names`, lines 39-46). -/
def feature_names : List String :=
  ["qualifying_time", "rain_probability", "temperature",
   "team_performance_score", "clean_air_pace", "average_position_change"]

/-- Driver-to-team mapping (`self.driver_to_team`, lines 47-53), in Python
dict insertion order. -/
def driver_to_team : List (String × String) :=
  [("VER", "Red Bull"), ("NOR", "McLaren"), ("PIA", "McLaren"), ("LEC", "Ferrari"),
   ("RUS", "Mercedes"), ("HAM", "Mercedes"), ("GAS", "Alpine"), ("ALO", "Aston Martin"),
   ("TSU", "Racing Bulls"), ("SAI", "Ferrari"), ("HUL", "Kick Sauber"), ("OCO", "Alpine"),
   ("STR", "Aston Martin"), ("ALB", "Williams"), ("COL", "Williams"), ("MAG", "Haas"),
   ("BOT", "Kick Sauber"), ("ZHO", "Kick Sauber"), ("RIC", "Racing Bulls")]

/-- Team performance scores (`self.team_performance_scores`, lines 56-60). -/
def team_performance_scores : List (String × ℚ) :=
  [("McLaren", 279/279), ("Mercedes", 147/279), ("Red Bull", 131/279), ("Williams", 51/279),
   ("Ferrari", 114/279), ("Haas", 20/279), ("Aston Martin", 14/279), ("Kick Sauber", 6/279),
   ("Racing Bulls", 10/279), ("Alpine", 7/279)]

/-- Average position change by circuit (`self.average_position_change`,
lines 63-69). -/
def average_position_change : List (String × List (String × ℚ)) :=
  [("Monaco",
    [("VER", -1.0), ("NOR", 1.0), ("PIA", 0.2), ("RUS", 0.5), ("SAI", -0.3),
     ("ALB", 0.8), ("LEC", -1.5), ("OCO", -0.2), ("HAM", 0.3), ("STR", 1.1),
     ("GAS", -0.4), ("ALO", -0.6), ("HUL", 0.0)])]

/-- Base qualifying times per team (`_estimate_qualifying_time`, lines 253-257). -/
def base_times : List (String × ℚ) :=
  [("Red Bull", 70.5), ("McLaren", 70.8), ("Ferrari", 71.0), ("Mercedes", 71.2),
   ("Aston Martin", 71.5), ("Alpine", 71.8), ("Williams", 72.0), ("Racing Bulls", 72.2),
   ("Haas", 72.4), ("Kick Sauber", 72.6)]

/-- Driver-specific qualifying adjustments (`_estimate_qualifying_time`,
lines 262-265). -/
def driver_adjustments : List (String × ℚ) :=
  [("VER", -0.3), ("NOR", -0.1), ("LEC", -0.2), ("HAM", -0.1), ("RUS", 0.0),
   ("PIA", 0.1), ("ALO", -0.1), ("SAI", 0.0), ("STR", 0.2), ("GAS", 0.1)]

/-- Base clean-air pace per team (`_estimate_clean_air_pace`, lines 272-276). -/
def base_pace : List (String × ℚ) :=
  [("Red Bull", 93.5), ("McLaren", 93.7), ("Ferrari", 94.0), ("Mercedes", 94.2),
   ("Aston Martin", 95.0), ("Alpine", 95.5), ("Williams", 95.8), ("Racing Bulls", 96.0),
   ("Haas", 96.2), ("Kick Sauber", 96.5)]

/-- Fallback clean-air pace table (`_get_clean_air_pace_data`, lines 224-229). -/
def mock_clean_air_pace : List (String × ℚ) :=
  [("VER", 93.191), ("HAM", 94.021), ("LEC", 93.419), ("NOR", 93.429), ("ALO", 94.784),
   ("PIA", 93.232), ("RUS", 93.833), ("SAI", 94.497), ("STR", 95.318), ("HUL", 95.345),
   ("OCO", 95.682), ("GAS", 95.9), ("TSU", 96.1), ("ALB", 95.8), ("MAG", 96.2),
   ("BOT", 96.5), ("ZHO", 96.8), ("RIC", 95.7), ("COL", 96.0)]

/-- Observable state of a (possibly unfitted) sklearn
`GradientBoostingRegressor`: whether it has been fitted, its prediction
function and its reported per-feature importances.  Predicting or reading
importances from an unfitted regressor raises `NotFittedError`
(documented sklearn behaviour). -/
structure GBModel where
  fitted : Bool
  predictFn : List (List ℚ) → List ℚ
  importances : List ℚ

/-- Model of `model.predict(X)`. -/
def GBModel.predictE (m : GBModel) (X : List (List ℚ)) : Except String (List ℚ) :=
  if m.fitted then Except.ok (m.predictFn X) else Except.error "NotFittedError"

/-- Model of reading `model.feature_importances_`. -/
def GBModel.featureImportancesE (m : GBModel) : Except String (List ℚ) :=
  if m.fitted then Except.ok m.importances else Except.error "NotFittedError"

/-- Result of `GradientBoostingRegressor(...)` before any `fit`
(`_create_default_model`, lines 92-97): an unfitted regressor. -/
def defaultGBModel : GBModel :=
  { fitted := false, predictFn := fun _ => [], importances := [] }

/-- Observable state of a sklearn `SimpleImputer(strategy="median")`:
whether it has been fitted and the number of feature columns it was fitted
on.  On data without missing values (the only data this program produces,
since features are plain rationals here) a fitted median imputer's
`transform` is the identity; an unfitted one raises `NotFittedError`; a
column-count mismatch with the fitted layout raises `ValueError`. -/
structure Imputer where
  fitted : Bool
  nFeatures : ℕ
deriving DecidableEq

/-- Model of `imputer.transform(X)` on missing-value-free data. -/
def Imputer.transformE (imp : Imputer) (X : List (List ℚ)) : Except String (List (List ℚ)) :=
  if imp.fitted then
    if X.all (fun row => row.length = imp.nFeatures) then Except.ok X
    else Except.error "ValueError"
  else Except.error "NotFittedError"

/-- Model of `SimpleImputer(strategy="median").fit(X)`. -/
def fitImputer (X : List (List ℚ)) : Imputer :=
  { fitted := true, nFeatures := (X.headD []).length }

/-- Result of `SimpleImputer(strategy="median")` before any `fit`
(`_create_default_model`, line 98). -/
def defaultImputer : Imputer := { fitted := false, nFeatures := 0 }

/-- The mutable model/imputer state of `PredictionService`. -/
structure EngineState where
  model : Option GBModel
  imputer : Option Imputer

/-- External collaborators of the engine, passed in explicitly: the FastF1
provider results (`none` models an exception, absence, or an empty
DataFrame), the numpy random draws consumed by the two estimate fallbacks
and by chaos mode, numpy's `argsort`, sklearn's gradient-boosting fit, the
70/30 `train_test_split`, and the wall-clock timestamp. -/
structure Lib where
  ff1CleanAir : Option (List (String × ℚ))
  ff1Quali : Option (List (String × ℚ))
  jitterQuali : String → ℚ
  jitterPace : String → ℚ
  chaosNoise : ℕ → ℚ
  argsort : List ℚ → List ℕ
  gbrFit : List (List ℚ) → List ℚ → GBModel
  trainTestSplit : List (List ℚ) → List ℚ →
    List (List ℚ) × List (List ℚ) × List ℚ × List ℚ
  now : String

/-- `_estimate_qualifying_time` (lines 251-268): team base time plus driver
adjustment plus a `np.random.normal(0, 0.1)` draw. -/
def estimate_qualifying_time (lib : Lib) (driver team : String) : ℚ :=
  (base_times.lookup team).getD 72.5 + (driver_adjustments.lookup driver).getD 0.0 +
    lib.jitterQuali driver

/-- `_estimate_clean_air_pace` (lines 270-278): team base pace plus a
`np.random.normal(0, 0.2)` draw. -/
def estimate_clean_air_pace (lib : Lib) (driver team : String) : ℚ :=
  (base_pace.lookup team).getD 96.0 + lib.jitterPace driver

/-- `_get_clean_air_pace_data` (lines 213-229): provider data when present
and non-empty, the fallback table otherwise. -/
def get_clean_air_pace_data (lib : Lib) : List (String × ℚ) :=
  match lib.ff1CleanAir with
  | some d => if d.isEmpty then mock_clean_air_pace else d
  | none => mock_clean_air_pace

/-- `_get_qualifying_predictions` (lines 231-249): the dict parsed from the
provider's qualifying results when available, otherwise estimates for every
driver in `driver_to_team`. -/
def get_qualifying_predictions (lib : Lib) : List (String × ℚ) :=
  match lib.ff1Quali with
  | some d => d
  | none => driver_to_team.map (fun dt => (dt.1, estimate_qualifying_time lib dt.1 dt.2))

/-- `_build_driver_features` (lines 181-211): the fixed-order six-entry
feature vector for one driver.  Every lookup degrades to an estimate or a
documented default, so the body never fails. -/
def build_driver_features (lib : Lib) (driver team event : String) (wd : WeatherData)
    (cap qd : List (String × ℚ)) : List ℚ :=
  let quali_time := (qd.lookup driver).getD (estimate_qualifying_time lib driver team)
  let team_score := (team_performance_scores.lookup team).getD 0.5
  let pace := (cap.lookup driver).getD (estimate_clean_air_pace lib driver team)
  let position_change := (((average_position_change.lookup event).getD []).lookup driver).getD 0.0
  [quali_time, wd.precipitation_prob, wd.temperature_c, team_score, pace, position_change]

/-- Drivers iterated by `predict_race` (every driver has a team mapping, so
`_build_driver_features` never returns `None` and no driver is filtered out). -/
def predict_drivers : List String := driver_to_team.map Prod.fst

/-- Feature rows built by `predict_race` (lines 132-144), one per driver in
`driver_to_team`, with the default weather substituted when no forecast is
available (lines 113-126). -/
def predict_race_features (lib : Lib) (weatherOpt : Option WeatherData)
    (event : String) : List (List ℚ) :=
  let wd := weatherOpt.getD default_weather
  let cap := get_clean_air_pace_data lib
  let qd := get_qualifying_predictions lib
  driver_to_team.map (fun dt => build_driver_features lib dt.1 dt.2 event wd cap qd)

/-- `_create_mock_predictions` (lines 280-292): per row,
`(qualifying_time + 20) * (2 - team_performance_score) * (1 + rain_probability * 0.1)`
reading the named columns of the feature frame (indices 0, 3 and 1). -/
def create_mock_predictions (features : List (List ℚ)) : List ℚ :=
  features.map fun row =>
    (row.getD 0 0 + 20) * (2 - row.getD 3 0) * (1 + row.getD 1 0 * 0.1)

/-- `_calculate_z_score` (lines 327-331). -/
def calculate_z_score (value mean std : ℚ) : ℚ :=
  if std = 0 then 0.0 else (value - mean) / std

/-- `_apply_weight_adjustments` (lines 294-325): starts from a copy of the
raw times, and for each index below `min (len times) (len drivers)` (the
`zip` bound) adds the weighted z-score overlay, plus a noise draw when
chaos mode is on.  Column indices follow `feature_names`:
`average_position_change` 5, `clean_air_pace` 4, `qualifying_time` 0,
`team_performance_score` 3, `rain_probability` 1; all z-scores are taken
against the default reference mean 0 and std 1. -/
def apply_weight_adjustments (times : List ℚ) (features : List (List ℚ))
    (drivers : List String) (w : PredictionWeights) (noise : ℕ → ℚ) : List ℚ :=
  (List.range times.length).map fun i =>
    if i < drivers.length then
      let row := features.getD i []
      let adjustment :=
        w.track_suitability * calculate_z_score (row.getD 5 0) 0.0 1.0 * 0.1 +
        w.clean_air_pace * calculate_z_score (row.getD 4 0) 0.0 1.0 * 0.1 +
        w.qualifying_importance * calculate_z_score (row.getD 0 0) 0.0 1.0 * 0.1 +
        w.team_form * calculate_z_score (row.getD 3 0) 0.0 1.0 * 0.1 +
        w.weather_impact * calculate_z_score (row.getD 1 0) 0.0 1.0 * 0.1
      let t := times.getD i 0 + adjustment
      if w.chaos_mode then t + noise i else t
    else times.getD i 0

/-- Win probability assigned to rank index `i`
(`_times_to_predictions`, line 346). -/
def win_prob (i : ℕ) : ℚ := max 0.01 (0.95 - (i : ℚ) * 0.05)

/-- Podium probability assigned to rank index `i`
(`_times_to_predictions`, lines 349-352). -/
def top3_prob (i : ℕ) : ℚ :=
  if i < 3 then 0.8 - (i : ℚ) * 0.1 else max 0.05 (0.5 - ((i : ℚ) - 3) * 0.05)

/-- `_times_to_predictions` (lines 333-362), with the permutation returned
by `np.argsort(predicted_times)` passed in as `perm`: the `i`-th output is
built from the driver at index `perm[i]` and receives the rank-`i`
probabilities. -/
def times_to_predictions (drivers : List String) (times : List ℚ)
    (perm : List ℕ) : List DriverPrediction :=
  (List.range perm.length).map fun i =>
    let idx := perm.getD i 0
    let driver := drivers.getD idx ""
    { driver := driver
      team := (driver_to_team.lookup driver).getD "Unknown"
      predicted_time := times.getD idx 0
      win_probability := win_prob i
      top3_probability := top3_prob i }

/-- Comparison used by the final `sorted(predictions, key=lambda x:
x.predicted_time)` (line 175). -/
def predLe (p q : DriverPrediction) : Bool := decide (p.predicted_time ≤ q.predicted_time)

/-- Python's `sorted` is a stable ascending sort. -/
def sort_predictions (l : List DriverPrediction) : List DriverPrediction :=
  l.mergeSort predLe

/-- Contract of `np.argsort` on a vector: the result is a permutation of
the index range along which the values are non-decreasing.  The default
`kind` (quicksort/introsort) promises nothing more; in particular it is
documented as not stable, so the order of indices of equal values is
unspecified. -/
def isArgsortOf (perm : List ℕ) (times : List ℚ) : Prop :=
  perm.Perm (List.range times.length) ∧
    perm.Pairwise (fun a b => times.getD a 0 ≤ times.getD b 0)

instance (perm : List ℕ) (times : List ℚ) : Decidable (isArgsortOf perm times) :=
  inferInstanceAs (Decidable (_ ∧ _))

/-- Specification satisfied by any compliant `argsort` implementation. -/
def ArgsortSpec (f : List ℚ → List ℕ) : Prop := ∀ xs, isArgsortOf (f xs) xs

/-- Stable reference argsort (what `np.argsort(..., kind="stable")` would
compute); used to instantiate `Lib.argsort` in concrete runs. -/
def argsortStable (xs : List ℚ) : List ℕ :=
  (List.range xs.length).mergeSort (fun a b => decide (xs.getD a 0 ≤ xs.getD b 0))

/-- The imputation step of `predict_race` (lines 153-158): a missing
imputer is replaced by a fresh median imputer fit on the feature frame
(whose `fit_transform` leaves missing-value-free data unchanged); an
existing imputer transforms, which raises `NotFittedError` if it was never
fitted. -/
def impute_step (st : EngineState) (feats : List (List ℚ)) :
    Except String (List (List ℚ)) :=
  match st.imputer with
  | none => Except.ok feats
  | some imp => imp.transformE feats

/-- The base-prediction step of `predict_race` (lines 160-165): the mock
heuristic on the raw feature frame when no model object exists, otherwise
`model.predict` on the imputed matrix. -/
def model_predict_step (st : EngineState) (feats imputed : List (List ℚ)) :
    Except String (List ℚ) :=
  match st.model with
  | none => Except.ok (create_mock_predictions feats)
  | some m => m.predictE imputed

/-- Raw predicted times of `predict_race` (lines 150-165): imputation
followed by the base prediction, each step able to raise. -/
def raw_times_step (st : EngineState) (feats : List (List ℚ)) :
    Except String (List ℚ) :=
  match impute_step st feats with
  | Except.error e => Except.error e
  | Except.ok imputed => model_predict_step st feats imputed

/-- `predict_race` (lines 101-179) up to its exception handler: build
features, return `[]` if none, impute, predict, overlay, rank, sort. -/
def predict_raceE (lib : Lib) (st : EngineState) (weatherOpt : Option WeatherData)
    (weights : PredictionWeights) (event : String) :
    Except String (List DriverPrediction) :=
  let feats := predict_race_features lib weatherOpt event
  if feats.isEmpty then Except.ok []
  else
    match raw_times_step st feats with
    | Except.error e => Except.error e
    | Except.ok raw =>
      let adjusted := apply_weight_adjustments raw feats predict_drivers weights lib.chaosNoise
      Except.ok (sort_predictions
        (times_to_predictions predict_drivers adjusted (lib.argsort adjusted)))

/-- `predict_race` as observed by its callers: the `except` handler at
lines 177-179 turns any internal exception into an empty result list. -/
def predict_race (lib : Lib) (st : EngineState) (weatherOpt : Option WeatherData)
    (weights : PredictionWeights) (event : String) : List DriverPrediction :=
  match predict_raceE lib st weatherOpt weights event with
  | Except.ok l => l
  | Except.error _ => []

/-- One element of the training payload (`train_model` reads
`race_data.get("features", [])` and `race_data.get("actual_time")`). -/
structure TrainingExample where
  features : List ℚ
  actual_time : Option ℚ
deriving DecidableEq

/-- The `(X, y)` pairs accepted by the validation loop of `train_model`
(lines 375-381): feature list of the right length and a present actual
time. -/
def valid_training_pairs (td : List TrainingExample) : List (List ℚ × ℚ) :=
  td.filterMap fun e =>
    match e.actual_time with
    | some t => if e.features.length = feature_names.length then some (e.features, t) else none
    | none => none

/-- Value returned by `train_model`: either an error dictionary
`{"error": msg}` or the success dictionary with MAE, feature-importance
map, and sample counts. -/
inductive TrainResult where
  | errorMsg : String → TrainResult
  | success : ℚ → List (String × ℚ) → ℕ → ℕ → TrainResult

/-- `mean_absolute_error` over paired predictions and targets. -/
def mean_abs_err (a b : List ℚ) : ℚ :=
  let ds := (a.zip b).map fun p => |p.1 - p.2|
  ds.sum / (ds.length : ℚ)

/-- Persisted model bundle (`_save_model`, lines 440-445): the current
model and imputer objects, the feature field order, and a timestamp. -/
structure Artifact where
  model : Option GBModel
  imputer : Option Imputer
  feature_names : List String
  trained_at : String

/-- `_save_model` (lines 436-453): the bundle pickled to disk. -/
def save_model (st : EngineState) (now : String) : Artifact :=
  { model := st.model, imputer := st.imputer,
    feature_names := feature_names, trained_at := now }

/-- `load_model` (lines 73-88): when an artifact file exists and unpickles,
its model and imputer are installed unconditionally (no field of the bundle
is checked); when the file is missing or unreadable, a fresh unfitted
default model and imputer are created (`_create_default_model`). -/
def load_model (file : Option Artifact) : EngineState :=
  match file with
  | some a => { model := a.model, imputer := a.imputer }
  | none => { model := some defaultGBModel, imputer := some defaultImputer }

/-- Engine state right after `PredictionService.__init__` on a machine with
no saved artifact. -/
def fresh_engine : EngineState := load_model none

/-- `train_model` (lines 364-434): validation, imputer fit, 70/30 split,
gradient-boosting fit, evaluation, artifact save, importance report.  The
function returns the new engine state, the result dictionary, and the
artifact written to disk (if any); every internal exception is caught and
returned as an error dictionary (lines 432-434). -/
def train_model (lib : Lib) (st : EngineState) (td : List TrainingExample) :
    EngineState × TrainResult × Option Artifact :=
  if td.isEmpty then (st, TrainResult.errorMsg "No training data", none)
  else
    let xy := valid_training_pairs td
    if xy.length < 10 then (st, TrainResult.errorMsg "Insufficient training data", none)
    else
      let X := xy.map Prod.fst
      let y := xy.map Prod.snd
      let imp := fitImputer X
      let Ximp := X
      let s := lib.trainTestSplit Ximp y
      let m := lib.gbrFit s.1 s.2.2.1
      let st2 : EngineState := { model := some m, imputer := some imp }
      match m.predictE s.2.1 with
      | Except.error e => (st2, TrainResult.errorMsg e, none)
      | Except.ok ypred =>
        let mae := mean_abs_err s.2.2.2 ypred
        let art := save_model st2 lib.now
        match m.featureImportancesE with
        | Except.error e => (st2, TrainResult.errorMsg e, some art)
        | Except.ok imps =>
          (st2, TrainResult.success mae (feature_names.zip imps) X.length s.2.1.length,
            some art)

/-- `get_feature_importance` (lines 455-463): the empty map when no model
object exists, otherwise the name-to-importance zip — which reads
`feature_importances_` and therefore raises on an unfitted model. -/
def get_feature_importanceE (st : EngineState) : Except String (List (String × ℚ)) :=
  match st.model with
  | none => Except.ok []
  | some m =>
    match m.featureImportancesE with
    | Except.error e => Except.error e
    | Except.ok imps => Except.ok (feature_names.zip imps)

/-- Concrete collaborator instantiation used to exercise the engine on
closed inputs: no provider data, zero random draws, the stable reference
argsort, a fit that returns a fitted model with uniform importances, and a
70/30-style split. -/
def testLib : Lib :=
  { ff1CleanAir := none
    ff1Quali := none
    jitterQuali := fun _ => 0
    jitterPace := fun _ => 0
    chaosNoise := fun _ => 0
    argsort := argsortStable
    gbrFit := fun _ _ =>
      { fitted := true, predictFn := fun M => M.map (fun _ => 0),
        importances := [1/6, 1/6, 1/6, 1/6, 1/6, 1/6] }
    trainTestSplit := fun X y => (X.drop 3, X.take 3, y.drop 3, y.take 3)
    now := "2024-01-01T00:00:00" }

/-! Helper lemmas shared by the claim theorems. -/

/-- Reading every position of a list through `getD` over the index range
recovers a plain `map`. -/
theorem map_getD_range {α β : Type} (l : List α) (d : α) (f : α → β) :
    (List.range l.length).map (fun i => f (l.getD i d)) = l.map f := by
  apply List.ext_getElem
  · simp
  · intro i h1 h2
    have hi : i < l.length := by simpa using h2
    simp only [List.getElem_map, List.getElem_range]
    rw [List.getD_eq_getElem l d hi]

/-- The stable reference argsort satisfies the argsort contract. -/
theorem argsortStable_spec : ArgsortSpec argsortStable := by
  intro xs
  unfold isArgsortOf argsortStable
  have htrans : ∀ a b c : ℕ, (decide (xs.getD a 0 ≤ xs.getD b 0)) = true →
      (decide (xs.getD b 0 ≤ xs.getD c 0)) = true →
      (decide (xs.getD a 0 ≤ xs.getD c 0)) = true := by
    intro a b c hab hbc
    simp only [decide_eq_true_eq] at hab hbc ⊢
    exact le_trans hab hbc
  have htot : ∀ a b : ℕ, ((decide (xs.getD a 0 ≤ xs.getD b 0)) ||
      (decide (xs.getD b 0 ≤ xs.getD a 0))) = true := by
    intro a b
    simp only [Bool.or_eq_true, decide_eq_true_eq]
    exact le_total _ _
  refine ⟨List.mergeSort_perm _ _ |>.trans (by simp), ?_⟩
  have h := List.sorted_mergeSort htrans htot (List.range xs.length)
  exact h.imp (fun hab => by simpa using hab)

/-- Output of the final `sorted` call is always pairwise non-decreasing in
predicted time. -/
theorem sort_predictions_pairwise (l : List DriverPrediction) :
    List.Pairwise (fun p q => p.predicted_time ≤ q.predicted_time) (sort_predictions l) := by
  have htrans : ∀ a b c : DriverPrediction, predLe a b = true → predLe b c = true →
      predLe a c = true := by
    intro a b c hab hbc
    simp only [predLe, decide_eq_true_eq] at hab hbc ⊢
    exact le_trans hab hbc
  have htot : ∀ a b : DriverPrediction, (predLe a b || predLe b a) = true := by
    intro a b
    simp only [predLe, Bool.or_eq_true, decide_eq_true_eq]
    exact le_total _ _
  exact (List.sorted_mergeSort htrans htot l).imp
    (fun hab => by simpa [predLe] using hab)

/-- Under an argsort-compliant permutation, the ranked list built by
`_times_to_predictions` is already pairwise non-decreasing. -/
theorem times_to_predictions_pairwise (drivers : List String) (times : List ℚ)
    (perm : List ℕ)
    (h : perm.Pairwise (fun a b => times.getD a 0 ≤ times.getD b 0)) :
    List.Pairwise (fun p q => predLe p q = true)
      (times_to_predictions drivers times perm) := by
  unfold times_to_predictions
  rw [List.pairwise_map]
  rw [List.pairwise_iff_getElem] at h ⊢
  intro i j hi hj hij
  simp only [List.length_range] at hi hj
  simp only [List.getElem_range, predLe, decide_eq_true_eq]
  show times.getD (perm.getD i 0) 0 ≤ times.getD (perm.getD j 0) 0
  rw [List.getD_eq_getElem perm 0 hi, List.getD_eq_getElem perm 0 hj]
  exact h i j hi hj hij

/-- The drivers listed in the output of `_times_to_predictions`, in order:
the input drivers read along the permutation. -/
theorem times_to_predictions_map_driver (drivers : List String) (times : List ℚ)
    (perm : List ℕ) :
    (times_to_predictions drivers times perm).map DriverPrediction.driver =
      perm.map (fun idx => drivers.getD idx "") := by
  unfold times_to_predictions
  rw [List.map_map]
  exact map_getD_range perm 0 (fun idx => drivers.getD idx "")

/-- The overlay keeps the length of the raw-times vector. -/
theorem length_apply_weight_adjustments (times : List ℚ) (features : List (List ℚ))
    (drivers : List String) (w : PredictionWeights) (noise : ℕ → ℚ) :
    (apply_weight_adjustments times features drivers w noise).length = times.length := by
  simp [apply_weight_adjustments]

/-- Whenever the raw-times step succeeds with one time per known-team
driver, `predict_race` succeeds and its output lists exactly the
known-team drivers (as a permutation). -/
theorem predict_raceE_ok_perm (lib : Lib) (st : EngineState)
    (weatherOpt : Option WeatherData) (w : PredictionWeights) (event : String)
    (hsort : ArgsortSpec lib.argsort) (raw : List ℚ)
    (hraw : raw_times_step st (predict_race_features lib weatherOpt event) = Except.ok raw)
    (hlen : raw.length = driver_to_team.length)
    (hne : (predict_race_features lib weatherOpt event).isEmpty = false) :
    ∃ out, predict_raceE lib st weatherOpt w event = Except.ok out ∧
      (out.map DriverPrediction.driver).Perm (driver_to_team.map Prod.fst) := by
  set adj := apply_weight_adjustments raw (predict_race_features lib weatherOpt event)
    predict_drivers w lib.chaosNoise with hadj
  have hadjlen : adj.length = predict_drivers.length := by
    rw [hadj, length_apply_weight_adjustments, hlen]
    simp [predict_drivers]
  have hE : predict_raceE lib st weatherOpt w event =
      Except.ok (sort_predictions
        (times_to_predictions predict_drivers adj (lib.argsort adj))) := by
    simp only [predict_raceE, hne, Bool.false_eq_true, if_false, hraw]
  refine ⟨_, hE, ?_⟩
  have h1 := (List.mergeSort_perm
    (times_to_predictions predict_drivers adj (lib.argsort adj)) predLe).map
    DriverPrediction.driver
  refine h1.trans ?_
  rw [times_to_predictions_map_driver]
  have h2 : (lib.argsort adj).Perm (List.range adj.length) := (hsort adj).1
  refine (h2.map _).trans ?_
  have h4 : (List.range adj.length).map (fun idx => predict_drivers.getD idx "") =
      predict_drivers := by
    rw [hadjlen]
    have hmap := map_getD_range predict_drivers "" (fun x => x)
    simpa using hmap
  rw [h4]
  exact List.Perm.refl _

/-- C1: when the engine is in the explicit model-is-None, imputer-is-None
state that the mock-prediction branch of `predict_race` guards on, and no
historical qualifying or pace data is available, the raw predicted times
are exactly `(qualifying_time + 20) * (2 - team_performance_score) *
(1 + rain_probability * 0.1)` per feature row, and `predict_race` returns
one prediction per competitor with a known team mapping.  (See
`C1_counterexample` for why the actual fresh-engine state does not reach
this branch.) -/
theorem C1_heuristic_fallback (lib : Lib) (st : EngineState)
    (weatherOpt : Option WeatherData) (w : PredictionWeights) (event : String)
    (_hca : lib.ff1CleanAir = none) (_hq : lib.ff1Quali = none)
    (hm : st.model = none) (hi : st.imputer = none)
    (hsort : ArgsortSpec lib.argsort) :
    raw_times_step st (predict_race_features lib weatherOpt event) =
      Except.ok ((predict_race_features lib weatherOpt event).map fun row =>
        (row.getD 0 0 + 20) * (2 - row.getD 3 0) * (1 + row.getD 1 0 * 0.1)) ∧
    ∃ out, predict_raceE lib st weatherOpt w event = Except.ok out ∧
      (out.map DriverPrediction.driver).Perm (driver_to_team.map Prod.fst) := by
  have hraw : raw_times_step st (predict_race_features lib weatherOpt event) =
      Except.ok (create_mock_predictions (predict_race_features lib weatherOpt event)) := by
    simp [raw_times_step, impute_step, model_predict_step, hm, hi]
  constructor
  · rw [hraw]
    rfl
  · refine predict_raceE_ok_perm lib st weatherOpt w event hsort _ hraw ?_ ?_
    · simp [create_mock_predictions, predict_race_features]
    · simp [predict_race_features, driver_to_team]

/-- C1 witness: concrete run in the model-is-None state with no provider
data, the default weather, and default weights. -/
theorem C1_witness :
    testLib.ff1CleanAir = none ∧ testLib.ff1Quali = none ∧
    (⟨none, none⟩ : EngineState).model = none ∧
    (⟨none, none⟩ : EngineState).imputer = none ∧
    ArgsortSpec testLib.argsort ∧
    (raw_times_step ⟨none, none⟩ (predict_race_features testLib none "Monaco") =
      Except.ok ((predict_race_features testLib none "Monaco").map fun row =>
        (row.getD 0 0 + 20) * (2 - row.getD 3 0) * (1 + row.getD 1 0 * 0.1)) ∧
    ∃ out, predict_raceE testLib ⟨none, none⟩ none
        (PredictionWeights.ofKwargs []) "Monaco" = Except.ok out ∧
      (out.map DriverPrediction.driver).Perm (driver_to_team.map Prod.fst)) :=
  ⟨rfl, rfl, rfl, rfl, argsortStable_spec,
    C1_heuristic_fallback testLib ⟨none, none⟩ none (PredictionWeights.ofKwargs [])
      "Monaco" rfl rfl rfl rfl argsortStable_spec⟩

/-- C1 counterexample: a fresh engine (no trained model anywhere) does not
hold `model = None` — `_create_default_model` installs an unfitted default
model and imputer — so on such an engine `predict_race` hits the unfitted
imputer's `NotFittedError` internally and returns the empty list: no
competitor receives a prediction and the heuristic raw times are never
produced. -/
theorem C1_counterexample :
    fresh_engine.model = some defaultGBModel ∧
    predict_raceE testLib fresh_engine none (PredictionWeights.ofKwargs []) "Monaco" =
      Except.error "NotFittedError" ∧
    predict_race testLib fresh_engine none (PredictionWeights.ofKwargs []) "Monaco" = [] ∧
    driver_to_team.map Prod.fst ≠ [] :=
  ⟨rfl, rfl, rfl, by decide⟩

/-- C3 (amended): for every collaborator instantiation, engine state and
input, the list returned by `predict_race` is sorted ascending by adjusted
predicted time.  The tie-order half of the original claim is not
guaranteed — see `C3_counterexample`. -/
theorem C3_sorted_ranking (lib : Lib) (st : EngineState)
    (weatherOpt : Option WeatherData) (w : PredictionWeights) (event : String) :
    List.Pairwise (fun p q => p.predicted_time ≤ q.predicted_time)
      (predict_race lib st weatherOpt w event) := by
  unfold predict_race
  cases hE : predict_raceE lib st weatherOpt w event with
  | error e => exact List.Pairwise.nil
  | ok l =>
    unfold predict_raceE at hE
    cases hne : (predict_race_features lib weatherOpt event).isEmpty with
    | true =>
      simp only [hne, if_true] at hE
      cases hE
      exact List.Pairwise.nil
    | false =>
      simp only [hne, Bool.false_eq_true, if_false] at hE
      cases hraw : raw_times_step st (predict_race_features lib weatherOpt event) with
      | error e => rw [hraw] at hE; cases hE
      | ok raw =>
        rw [hraw] at hE
        simp only [Except.ok.injEq] at hE
        rw [← hE]
        exact sort_predictions_pairwise _

/-- C3 counterexample: `np.argsort`'s default kind is not a stable sort,
so on exactly equal adjusted times the ranking pipeline may emit the
competitors in an order different from the input order.  `[1, 0]` is a
contract-compliant argsort result for the tied times `[5, 5]`, and under
it the ranking stage (including the final stable `sorted` call, which
preserves the already-sorted list) outputs NOR before VER, the reverse of
the input order. -/
theorem C3_counterexample :
    isArgsortOf [1, 0] [(5 : ℚ), 5] ∧
    (sort_predictions (times_to_predictions ["VER", "NOR"] [(5 : ℚ), 5] [1, 0])).map
        DriverPrediction.driver = ["NOR", "VER"] ∧
    (["NOR", "VER"] : List String) ≠ ["VER", "NOR"] := by
  refine ⟨by decide, ?_, by decide⟩
  have hs : List.Pairwise (fun p q => predLe p q = true)
      (times_to_predictions ["VER", "NOR"] [(5 : ℚ), 5] [1, 0]) := by decide
  rw [sort_predictions, List.mergeSort_of_sorted hs]
  decide

/-- C4: with all five weight coefficients at 0 and chaos mode off, the
overlay returns the raw predicted times unchanged, for every conformant
raw-times vector and feature matrix. -/
theorem C4_zero_weight_identity (times : List ℚ) (features : List (List ℚ))
    (drivers : List String) (w : PredictionWeights) (noise : ℕ → ℚ)
    (h1 : w.track_suitability = 0) (h2 : w.clean_air_pace = 0)
    (h3 : w.qualifying_importance = 0) (h4 : w.team_form = 0)
    (h5 : w.weather_impact = 0) (hchaos : w.chaos_mode = false)
    (hd : drivers.length = times.length) (hf : features.length = times.length) :
    apply_weight_adjustments times features drivers w noise = times := by
  unfold apply_weight_adjustments
  apply List.ext_getElem
  · simp
  · intro i hi1 hi2
    have hit : i < times.length := by simpa using hi2
    simp only [List.getElem_map, List.getElem_range]
    rw [if_pos (by omega : i < drivers.length)]
    simp only [h1, h2, h3, h4, h5, hchaos, zero_mul, add_zero, zero_add,
      Bool.false_eq_true, if_false]
    rw [List.getD_eq_getElem times 0 hit]

/-- C4 witness: concrete two-driver instance with all-zero weights. -/
theorem C4_witness :
    ((⟨0, 0, 0, 0, 0, false⟩ : PredictionWeights).track_suitability = 0) ∧
    ((⟨0, 0, 0, 0, 0, false⟩ : PredictionWeights).chaos_mode = false) ∧
    apply_weight_adjustments [91, 95]
      [[70, 0.1, 20, 1, 93, -1], [71, 0.1, 20, 0.5, 94, 1]]
      ["VER", "NOR"] ⟨0, 0, 0, 0, 0, false⟩ (fun _ => 7) = [91, 95] :=
  ⟨rfl, rfl,
    C4_zero_weight_identity [91, 95]
      [[70, 0.1, 20, 1, 93, -1], [71, 0.1, 20, 0.5, 94, 1]]
      ["VER", "NOR"] ⟨0, 0, 0, 0, 0, false⟩ (fun _ => 7)
      rfl rfl rfl rfl rfl rfl rfl rfl⟩

/-- Default element for indexed access into prediction lists. -/
def default_prediction : DriverPrediction := ⟨"", "", 0, 0, 0⟩

/-- The full ranking stage of `predict_race`: `_times_to_predictions`
followed by the final stable `sorted` call. -/
def ranked_predictions (drivers : List String) (times : List ℚ)
    (perm : List ℕ) : List DriverPrediction :=
  sort_predictions (times_to_predictions drivers times perm)

theorem length_ranked_predictions (drivers : List String) (times : List ℚ)
    (perm : List ℕ) : (ranked_predictions drivers times perm).length = perm.length := by
  simp [ranked_predictions, sort_predictions, List.length_mergeSort, times_to_predictions]

/-- Under a compliant argsort the ranking stage's final stable sort is the
identity (its input is already sorted). -/
theorem ranked_eq_of_argsort (drivers : List String) (times : List ℚ)
    (perm : List ℕ) (h : isArgsortOf perm times) :
    ranked_predictions drivers times perm = times_to_predictions drivers times perm :=
  List.mergeSort_of_sorted (times_to_predictions_pairwise drivers times perm h.2)

theorem times_to_predictions_getD_win (drivers : List String) (times : List ℚ)
    (perm : List ℕ) {i : ℕ} (hi : i < perm.length) :
    ((times_to_predictions drivers times perm).getD i default_prediction).win_probability
      = win_prob i := by
  unfold times_to_predictions
  rw [List.getD_eq_getElem _ _ (by simpa using hi)]
  simp

theorem times_to_predictions_getD_top3 (drivers : List String) (times : List ℚ)
    (perm : List ℕ) {i : ℕ} (hi : i < perm.length) :
    ((times_to_predictions drivers times perm).getD i default_prediction).top3_probability
      = top3_prob i := by
  unfold times_to_predictions
  rw [List.getD_eq_getElem _ _ (by simpa using hi)]
  simp

theorem win_prob_antitone {i j : ℕ} (hij : i ≤ j) : win_prob j ≤ win_prob i := by
  unfold win_prob
  have hc : (i : ℚ) ≤ (j : ℚ) := Nat.cast_le.mpr hij
  apply max_le_max le_rfl
  linarith

theorem win_prob_pos (i : ℕ) : 0 < win_prob i :=
  lt_of_lt_of_le (by norm_num) (le_max_left 0.01 _)

theorem top3_prob_antitone_lo {i j : ℕ} (hij : i ≤ j) (hj : j < 3) :
    top3_prob j ≤ top3_prob i := by
  unfold top3_prob
  have hi3 : i < 3 := lt_of_le_of_lt hij hj
  rw [if_pos hj, if_pos hi3]
  have hc : (i : ℚ) ≤ (j : ℚ) := Nat.cast_le.mpr hij
  linarith

theorem top3_prob_antitone_hi {i j : ℕ} (hi : 3 ≤ i) (hij : i ≤ j) :
    top3_prob j ≤ top3_prob i := by
  unfold top3_prob
  rw [if_neg (by omega), if_neg (by omega)]
  have hc : (i : ℚ) ≤ (j : ℚ) := Nat.cast_le.mpr hij
  apply max_le_max le_rfl
  linarith

theorem top3_prob_floor {i : ℕ} (hi : 3 ≤ i) : 0.05 ≤ top3_prob i := by
  unfold top3_prob
  rw [if_neg (by omega)]
  exact le_max_left _ _

/-- C5: in the ranked output (under a compliant argsort), the competitor
at rank index `i` has win probability exactly `max(0.01, 0.95 - i*0.05)`
(positive, non-increasing in rank) and podium probability exactly
`0.8 - i*0.1` for `i < 3` and `max(0.05, 0.5 - (i-3)*0.05)` for `i ≥ 3`,
non-increasing within each of those two ranges and floor-bounded at 0.05
in the second. -/
theorem C5_probability_formulas (drivers : List String) (times : List ℚ)
    (perm : List ℕ) (h : isArgsortOf perm times) (i : ℕ)
    (hi : i < (ranked_predictions drivers times perm).length) :
    ((ranked_predictions drivers times perm).getD i default_prediction).win_probability
        = max 0.01 (0.95 - (i : ℚ) * 0.05) ∧
    ((ranked_predictions drivers times perm).getD i default_prediction).top3_probability
        = (if i < 3 then 0.8 - (i : ℚ) * 0.1 else max 0.05 (0.5 - ((i : ℚ) - 3) * 0.05)) ∧
    0 < ((ranked_predictions drivers times perm).getD i
        default_prediction).win_probability ∧
    (∀ j, j ≤ i →
      ((ranked_predictions drivers times perm).getD i default_prediction).win_probability ≤
      ((ranked_predictions drivers times perm).getD j default_prediction).win_probability) ∧
    (∀ j, j ≤ i → i < 3 →
      ((ranked_predictions drivers times perm).getD i default_prediction).top3_probability ≤
      ((ranked_predictions drivers times perm).getD j default_prediction).top3_probability) ∧
    (∀ j, 3 ≤ j → j ≤ i →
      ((ranked_predictions drivers times perm).getD i default_prediction).top3_probability ≤
      ((ranked_predictions drivers times perm).getD j default_prediction).top3_probability) ∧
    (3 ≤ i → 0.05 ≤ ((ranked_predictions drivers times perm).getD i
        default_prediction).top3_probability) := by
  have hip : i < perm.length := by
    rw [length_ranked_predictions] at hi
    exact hi
  have heq := ranked_eq_of_argsort drivers times perm h
  rw [heq]
  refine ⟨times_to_predictions_getD_win drivers times perm hip,
    times_to_predictions_getD_top3 drivers times perm hip, ?_, ?_, ?_, ?_, ?_⟩
  · rw [times_to_predictions_getD_win drivers times perm hip]
    exact win_prob_pos i
  · intro j hj
    have hjp : j < perm.length := lt_of_le_of_lt hj hip
    rw [times_to_predictions_getD_win drivers times perm hip,
      times_to_predictions_getD_win drivers times perm hjp]
    exact win_prob_antitone hj
  · intro j hj hi3
    have hjp : j < perm.length := lt_of_le_of_lt hj hip
    rw [times_to_predictions_getD_top3 drivers times perm hip,
      times_to_predictions_getD_top3 drivers times perm hjp]
    exact top3_prob_antitone_lo hj hi3
  · intro j hj3 hj
    have hjp : j < perm.length := lt_of_le_of_lt hj hip
    rw [times_to_predictions_getD_top3 drivers times perm hip,
      times_to_predictions_getD_top3 drivers times perm hjp]
    exact top3_prob_antitone_hi hj3 hj
  · intro hi3
    rw [times_to_predictions_getD_top3 drivers times perm hip]
    exact top3_prob_floor hi3

/-- C5 witness: concrete two-driver ranking at rank index 1. -/
theorem C5_witness :
    isArgsortOf [1, 0] [(2 : ℚ), 1] ∧
    1 < (ranked_predictions ["VER", "NOR"] [(2 : ℚ), 1] [1, 0]).length ∧
    ((ranked_predictions ["VER", "NOR"] [(2 : ℚ), 1] [1, 0]).getD 1
        default_prediction).win_probability = max 0.01 (0.95 - (1 : ℚ) * 0.05) :=
  ⟨by decide, by rw [length_ranked_predictions]; norm_num,
    (C5_probability_formulas ["VER", "NOR"] [(2 : ℚ), 1] [1, 0] (by decide) 1
      (by rw [length_ranked_predictions]; norm_num)).1⟩

/-- Nine valid training examples. -/
def td9 : List TrainingExample :=
  List.replicate 9 { features := [70, 0.1, 20, 0.5, 93, 0], actual_time := some 91 }

/-- Ten valid training examples. -/
def td10 : List TrainingExample :=
  List.replicate 10 { features := [70, 0.1, 20, 0.5, 93, 0], actual_time := some 91 }

/-- C2 counterexample: with 9 valid examples `train_model` does not raise
anything — the whole body is wrapped in `try/except` and the sub-minimum
branch is an ordinary `return {"error": "Insufficient training data"}`
(no `InsufficientDataError` exists anywhere in the repository), with the
engine state untouched and nothing written. -/
theorem C2_counterexample :
    train_model testLib fresh_engine td9 =
      (fresh_engine, TrainResult.errorMsg "Insufficient training data", none) ∧
    (valid_training_pairs td9).length = 9 :=
  ⟨rfl, by decide⟩

/-- C2 (amended): below 10 valid examples `train_model` returns the
`"Insufficient training data"` error dictionary (or `"No training data"`
for an empty payload) as a normal value; with at least 10 valid examples,
and a library fit that returns a fitted regressor reporting one importance
per feature, it returns a success dictionary whose feature-importance map
has exactly one entry per feature name (hence non-empty). -/
theorem C2_training_threshold (lib : Lib) (st : EngineState)
    (td : List TrainingExample) :
    (td = [] → train_model lib st td = (st, TrainResult.errorMsg "No training data", none)) ∧
    (td ≠ [] → (valid_training_pairs td).length < 10 →
      train_model lib st td =
        (st, TrainResult.errorMsg "Insufficient training data", none)) ∧
    (10 ≤ (valid_training_pairs td).length →
      (∀ X y, (lib.gbrFit X y).fitted = true) →
      (∀ X y, (lib.gbrFit X y).importances.length = feature_names.length) →
      ∃ st2 mae fi nTr nTe art,
        train_model lib st td = (st2, TrainResult.success mae fi nTr nTe, some art) ∧
        fi.length = 6 ∧ fi ≠ []) := by
  refine ⟨?_, ?_, ?_⟩
  · intro h
    subst h
    rfl
  · intro hne hlt
    have hE : td.isEmpty = false := by
      cases td with
      | nil => exact absurd rfl hne
      | cons a l => rfl
    unfold train_model
    rw [hE]
    simp only [Bool.false_eq_true, if_false]
    rw [if_pos hlt]
  · intro h10 hfit himp
    have hne : td.isEmpty = false := by
      cases td with
      | nil => simp [valid_training_pairs] at h10
      | cons a l => rfl
    unfold train_model
    rw [hne]
    simp only [Bool.false_eq_true, if_false]
    rw [if_neg (by omega)]
    simp only [GBModel.predictE, GBModel.featureImportancesE, hfit, if_true]
    refine ⟨_, _, _, _, _, _, rfl, ?_, ?_⟩
    · rw [List.length_zip, himp]
      rfl
    · intro hnil
      have := congrArg List.length hnil
      rw [List.length_zip, himp] at this
      simp [feature_names] at this

/-- C2 witness: concrete run with exactly 10 valid examples against the
concrete collaborators. -/
theorem C2_witness :
    10 ≤ (valid_training_pairs td10).length ∧
    (∀ X y, (testLib.gbrFit X y).fitted = true) ∧
    (∀ X y, (testLib.gbrFit X y).importances.length = feature_names.length) ∧
    (∃ st2 mae fi nTr nTe art,
      train_model testLib fresh_engine td10 =
        (st2, TrainResult.success mae fi nTr nTe, some art) ∧
      fi.length = 6 ∧ fi ≠ []) :=
  ⟨by decide, fun _ _ => rfl, fun _ _ => rfl,
    (C2_training_threshold testLib fresh_engine td10).2.2 (by decide)
      (fun _ _ => rfl) (fun _ _ => rfl)⟩

/-- C6: a training call with fewer than 10 valid examples leaves the
engine state exactly as it was and writes no artifact. -/
theorem C6_state_preserved (lib : Lib) (st : EngineState)
    (td : List TrainingExample) (h : (valid_training_pairs td).length < 10) :
    (train_model lib st td).1 = st ∧ (train_model lib st td).2.2 = none := by
  unfold train_model
  cases hE : td.isEmpty with
  | true => simp
  | false => simp [h]

/-- C6 witness: concrete sub-minimum training call. -/
theorem C6_witness :
    (valid_training_pairs td9).length < 10 ∧
    (train_model testLib fresh_engine td9).1 = fresh_engine ∧
    (train_model testLib fresh_engine td9).2.2 = none :=
  ⟨by decide, C6_state_preserved testLib fresh_engine td9 (by decide)⟩

/-- Artifact whose stored feature field order differs from the engine's
fixed `feature_names`. -/
def mismatched_artifact : Artifact :=
  { model := some { fitted := true, predictFn := fun _ => [], importances := [1, 0, 0, 0, 0, 0] }
    imputer := some { fitted := true, nFeatures := 1 }
    feature_names := ["speed"]
    trained_at := "2023-01-01T00:00:00" }

/-- C7 counterexample: `load_model` installs the unpickled model and
imputer without ever reading the stored `feature_names`, so an artifact
with a different feature field order is accepted, not rejected. -/
theorem C7_counterexample :
    (load_model (some mismatched_artifact)).model = mismatched_artifact.model ∧
    (load_model (some mismatched_artifact)).imputer = mismatched_artifact.imputer ∧
    mismatched_artifact.feature_names ≠ feature_names :=
  ⟨rfl, rfl, by decide⟩

/-- C7 (amended): the persisted artifact is a single bundle holding the
model, the imputer, the feature field order and a training timestamp, but
the loader performs no versioning check: it installs whatever model and
imputer the bundle holds, regardless of the stored feature order. -/
theorem C7_artifact_bundle (st : EngineState) (now : String) (a : Artifact) :
    save_model st now =
      { model := st.model, imputer := st.imputer,
        feature_names := feature_names, trained_at := now } ∧
    load_model (some a) = { model := a.model, imputer := a.imputer } :=
  ⟨rfl, rfl⟩

/-- C8 counterexample: a fresh engine that has never trained a model holds
the unfitted default regressor (not `None`), and on that state
`get_feature_importance` reads `feature_importances_` of an unfitted
model, which raises `NotFittedError` instead of returning an empty map. -/
theorem C8_counterexample :
    fresh_engine.model = some defaultGBModel ∧
    get_feature_importanceE fresh_engine = Except.error "NotFittedError" :=
  ⟨rfl, rfl⟩

/-- C8 (amended): `get_feature_importance` returns the empty map, raising
nothing, exactly on states whose model attribute is `None`; the untrained
fresh-engine state instead holds an unfitted default model and raises (see
`C8_counterexample`). -/
theorem C8_empty_importance (st : EngineState) (h : st.model = none) :
    get_feature_importanceE st = Except.ok [] := by
  simp [get_feature_importanceE, h]

/-- C8 witness: the explicit model-is-None state. -/
theorem C8_witness :
    (⟨none, none⟩ : EngineState).model = none ∧
    get_feature_importanceE ⟨none, none⟩ = Except.ok [] :=
  ⟨rfl, C8_empty_importance ⟨none, none⟩ rfl⟩

/-- C9: missing inputs are replaced by documented defaults rather than
failing — the fixed default weather snapshot (20 °C, 10 km/h wind, 10%
rain probability, clear) when no forecast is available, 0.5 for a team
absent from the team-strength table, and 0.0 for a competitor absent from
the venue's position-change table. -/
theorem C9_missing_input_defaults :
    (default_weather.temperature_c = 20 ∧ default_weather.wind_kph = 10 ∧
      default_weather.precipitation_prob = 0.1 ∧
      default_weather.weather_condition = "clear") ∧
    (∀ lib driver team event wd cap qd,
      team_performance_scores.lookup team = none →
      (build_driver_features lib driver team event wd cap qd).getD 3 0 = 0.5) ∧
    (∀ lib driver team event wd cap qd,
      (((average_position_change.lookup event).getD []).lookup driver) = none →
      (build_driver_features lib driver team event wd cap qd).getD 5 0 = 0) ∧
    (∀ lib event, ∀ row ∈ predict_race_features lib none event,
      row.getD 1 0 = 0.1 ∧ row.getD 2 0 = 20) := by
  refine ⟨⟨rfl, rfl, rfl, rfl⟩, ?_, ?_, ?_⟩
  · intro lib driver team event wd cap qd h
    simp [build_driver_features, h]
  · intro lib driver team event wd cap qd h
    simp [build_driver_features, h]
    norm_num
  · intro lib event row hrow
    simp only [predict_race_features, List.mem_map] at hrow
    obtain ⟨dt, _, rfl⟩ := hrow
    constructor <;> simp [build_driver_features, default_weather]

/-- C9 witness: an unknown team and a competitor absent from the venue
table receive the documented defaults. -/
theorem C9_witness :
    team_performance_scores.lookup "Andretti" = none ∧
    (build_driver_features testLib "HER" "Andretti" "Monza" default_weather [] []).getD 3 0
      = 0.5 ∧
    (((average_position_change.lookup "Monza").getD []).lookup "HER") = none ∧
    (build_driver_features testLib "HER" "Andretti" "Monza" default_weather [] []).getD 5 0
      = 0 :=
  ⟨by decide,
    C9_missing_input_defaults.2.1 testLib "HER" "Andretti" "Monza" default_weather [] []
      (by decide),
    by decide,
    C9_missing_input_defaults.2.2.1 testLib "HER" "Andretti" "Monza" default_weather [] []
      (by decide)⟩

/-- C10: constructing `PredictionWeights` from a keyword mapping ignores
every unknown key, substitutes the fixed non-zero defaults (0.85, 0.90,
0.85, 0.68, 0.45, chaos off) for every missing coefficient, and performs
no range validation — out-of-range values are stored unchanged. -/
theorem C10_kwargs_construction :
    (PredictionWeights.ofKwargs [] =
      { track_suitability := 0.85, clean_air_pace := 0.90,
        qualifying_importance := 0.85, team_form := 0.68,
        weather_impact := 0.45, chaos_mode := false }) ∧
    ((0.85 : ℚ) ≠ 0 ∧ (0.90 : ℚ) ≠ 0 ∧ (0.68 : ℚ) ≠ 0 ∧ (0.45 : ℚ) ≠ 0) ∧
    (∀ key v kwargs,
      key ∉ (["track_suitability", "clean_air_pace", "qualifying_importance",
        "team_form", "weather_impact", "chaos_mode"] : List String) →
      PredictionWeights.ofKwargs ((key, v) :: kwargs) =
        PredictionWeights.ofKwargs kwargs) ∧
    (∀ q : ℚ,
      (PredictionWeights.ofKwargs [("track_suitability", KwVal.num q)]).track_suitability
        = q) ∧
    ((PredictionWeights.ofKwargs [("weather_impact", KwVal.num (-3))]).weather_impact
      = -3) := by
  refine ⟨rfl, ⟨by norm_num, by norm_num, by norm_num, by norm_num⟩, ?_, ?_, rfl⟩
  · intro key v kwargs hk
    simp only [List.mem_cons, List.not_mem_nil, or_false, not_or] at hk
    obtain ⟨h1, h2, h3, h4, h5, h6⟩ := hk
    have e1 : ("track_suitability" == key) = false := beq_eq_false_iff_ne.mpr (Ne.symm h1)
    have e2 : ("clean_air_pace" == key) = false := beq_eq_false_iff_ne.mpr (Ne.symm h2)
    have e3 : ("qualifying_importance" == key) = false := beq_eq_false_iff_ne.mpr (Ne.symm h3)
    have e4 : ("team_form" == key) = false := beq_eq_false_iff_ne.mpr (Ne.symm h4)
    have e5 : ("weather_impact" == key) = false := beq_eq_false_iff_ne.mpr (Ne.symm h5)
    have e6 : ("chaos_mode" == key) = false := beq_eq_false_iff_ne.mpr (Ne.symm h6)
    simp [PredictionWeights.ofKwargs, kwGetNum, kwGetBool, List.lookup,
      e1, e2, e3, e4, e5, e6]
  · intro q
    rfl

/-- C10 witness: a concrete unknown key is ignored. -/
theorem C10_witness :
    ("mystery_key" ∉ (["track_suitability", "clean_air_pace", "qualifying_importance",
      "team_form", "weather_impact", "chaos_mode"] : List String)) ∧
    PredictionWeights.ofKwargs [("mystery_key", KwVal.num 99)] =
      PredictionWeights.ofKwargs [] :=
  ⟨by decide,
    C10_kwargs_construction.2.2.1 "mystery_key" (KwVal.num 99) [] (by decide)⟩

end F1Pred
